import Mathlib

/-!
Verification development for the CC-Filtering pipeline
(`common-crawl-processor.py` and `slurm-sequential-runner.py`).

The Python source is shallowly embedded: text is modelled as `List Char`,
the filesystem side effects of one `process_segment` call as explicit
booleans in a result record, network and scheduler behaviour as input
oracles, and caught exceptions as `Except`/abandon-and-keep semantics
mirroring the `try`/`except` blocks of the source.
-/

/-! ### Character classes of the postcode regular expression

The source regex (lines 61 and 65 of common-crawl-processor.py) is
`\b[A-Z]{1,2}[0-9][A-Z0-9]? [0-9][ABD-HJLNP-UW-Z]{2}\b`.
`\w` (for `\b`) is modelled as ASCII alphanumeric or underscore. -/

def isWordChar (c : Char) : Bool := c.isAlphanum || c = '_'

def isUpperAZ (c : Char) : Bool := 'A' ≤ c && c ≤ 'Z'

def isDigit09 (c : Char) : Bool := '0' ≤ c && c ≤ '9'

def isUpperOrDigit (c : Char) : Bool := isUpperAZ c || isDigit09 c

/-- The final character class `[ABD-HJLNP-UW-Z]`: uppercase letters
except C, I, K, M, O, V. -/
def inFinalClass (c : Char) : Bool :=
  isUpperAZ c && !(c = 'C' || c = 'I' || c = 'K' || c = 'M' || c = 'O' || c = 'V')

/-- `\b` holds after the end of a candidate match (the previous char is a
word char by construction) iff the next char, when present, is not a word
char. -/
def trailingBoundary (l : List Char) : Bool :=
  match l with
  | [] => true
  | c :: _ => !isWordChar c

/-! ### Backtracking matcher for the fixed postcode pattern

`matchTail2` consumes the literal space, the digit and the two
final-class letters and checks the trailing `\b`; `matchAfterDigit`
handles the optional `[A-Z0-9]?` (greedy: presence tried first by its
caller); `matchBody` consumes the leading `[A-Z]{1,2}[0-9]`.
`tryMatchAt` explores the alternatives in Python's backtracking order:
two letters before one, optional char present before absent. -/

def matchTail2 (acc : List Char) (l : List Char) : Option (List Char × List Char) :=
  match l with
  | ' ' :: d :: c1 :: c2 :: rest =>
    if isDigit09 d && inFinalClass c1 && inFinalClass c2 && trailingBoundary rest then
      some (acc ++ [' ', d, c1, c2], rest)
    else none
  | _ => none

def matchAfterDigit (acc : List Char) (useOpt : Bool) (l : List Char) :
    Option (List Char × List Char) :=
  if useOpt then
    match l with
    | c :: rest => if isUpperOrDigit c then matchTail2 (acc ++ [c]) rest else none
    | [] => none
  else matchTail2 acc l

def matchBody (nLetters : Nat) (useOpt : Bool) (l : List Char) :
    Option (List Char × List Char) :=
  match nLetters, l with
  | 2, a :: b :: d :: rest =>
    if isUpperAZ a && isUpperAZ b && isDigit09 d then
      matchAfterDigit [a, b, d] useOpt rest
    else none
  | 1, a :: d :: rest =>
    if isUpperAZ a && isDigit09 d then matchAfterDigit [a, d] useOpt rest else none
  | _, _ => none

def tryMatchAt (l : List Char) : Option (List Char × List Char) :=
  (matchBody 2 true l).orElse fun _ =>
    (matchBody 2 false l).orElse fun _ =>
      (matchBody 1 true l).orElse fun _ => matchBody 1 false l

/-- Leftmost, non-overlapping scan of `re.findall`, with the leading `\b`
checked against the previous character.  The `fuel` argument is a
totality device only: each step consumes at least one character, so
`fuel = length of the text` never runs out. -/
def findallAux : Nat → Option Char → List Char → List (List Char)
  | 0, _, _ => []
  | _ + 1, _, [] => []
  | fuel + 1, prev, c :: rest =>
    let boundaryOk := match prev with
      | none => true
      | some p => !isWordChar p
    if boundaryOk then
      match tryMatchAt (c :: rest) with
      | some (m, rest2) => m :: findallAux fuel (some 'A') rest2
      | none => findallAux fuel (some c) rest
    else findallAux fuel (some c) rest

/-- `re.findall(r'\b[A-Z]{1,2}[0-9][A-Z0-9]? [0-9][ABD-HJLNP-UW-Z]{2}\b', text)`.
(The previous-character seed after a match is any word character: every
match ends in a final-class letter.) -/
def re_findall (text : List Char) : List (List Char) :=
  findallAux text.length none text

/-! ### postcode_finder and Bristol_postcode_finder (lines 60-70) -/

/-- `postcode_finder`: regex matches, deduplicated.  Python's
`list(set(..))` has unspecified order; `List.dedup` stands for one such
ordering — every property proved below is order-insensitive. -/
def postcode_finder (text : List Char) : List (List Char) :=
  (re_findall text).dedup

/-- `Bristol_postcode_finder(text, postcode_lookup)`.  A `none` lookup is
Python's `None`: evaluating `postcode_lookup['pcds'].values` then raises
`TypeError`, but only when the BS-filtered candidate list is non-empty
(the comprehension never evaluates the condition on an empty list).
`Except.error` models that raised exception.  The function returns the
match list when non-empty and `None` (here `none`) otherwise. -/
def Bristol_postcode_finder (text : List Char) (lookup : Option (List (List Char))) :
    Except Unit (Option (List (List Char))) :=
  let postcodes := (re_findall text).dedup
  let postcodes := postcodes.filter (fun p => List.isPrefixOf ['B', 'S'] p)
  match lookup with
  | none => if postcodes.isEmpty then Except.ok none else Except.error ()
  | some pcds =>
    let hits := postcodes.filter (fun p => decide (p ∈ pcds))
    Except.ok (if hits.isEmpty then none else some hits)

/-! ### extract_website (lines 72-75) -/

/-- `re.sub(r'\.uk/.*', ".uk", url)`: each leftmost non-overlapping match
of `.uk/` followed by the rest of the line (`.*` stops at a newline) is
replaced by `.uk`.  Fuel is a totality device; `fuel = length` suffices
since every step consumes at least one character. -/
def sub_ukAux : Nat → List Char → List Char
  | 0, l => l
  | _ + 1, [] => []
  | fuel + 1, c :: rest =>
    if List.isPrefixOf ['.', 'u', 'k', '/'] (c :: rest) then
      ['.', 'u', 'k'] ++ sub_ukAux fuel (List.dropWhile (fun x => x ≠ '\n') (rest.drop 3))
    else c :: sub_ukAux fuel rest

/-- `str.replace(pat, "")`: remove every leftmost non-overlapping
occurrence of `pat`.  Fuel as above. -/
def removeAllAux (pat : List Char) : Nat → List Char → List Char
  | 0, l => l
  | _ + 1, [] => []
  | fuel + 1, c :: rest =>
    if List.isPrefixOf pat (c :: rest) then
      removeAllAux pat fuel ((c :: rest).drop pat.length)
    else c :: removeAllAux pat fuel rest

def str_remove (l pat : List Char) : List Char := removeAllAux pat l.length l

def extract_website (url : List Char) : List Char :=
  let website := sub_ukAux url.length url
  str_remove (str_remove website ('h' :: 't' :: 't' :: 'p' :: 's' :: ':' :: '/' :: '/' :: []))
    ('h' :: 't' :: 't' :: 'p' :: ':' :: '/' :: '/' :: [])

/-! ### Archive records and process_wet_file (lines 77-112)

`warcio`'s `ArchiveIterator` yields records lazily; a malformed or
truncated archive raises during iteration.  An `ArchiveInput` therefore
carries the records that the iterator yields intact before any error;
`openFails` models `gzip.open` (or the first iterator step) raising
before any record is yielded, and `raisesAfter` models the iterator
raising after the `records` were yielded.  The `except` block at
line 102 catches the exception and keeps the `results` accumulated so
far — which is why `raisesAfter` does not change the computed rows. -/

/-- Python's substring test `pat in s`. -/
def containsSub (pat : List Char) : List Char → Bool
  | [] => List.isPrefixOf pat []
  | c :: rest => List.isPrefixOf pat (c :: rest) || containsSub pat rest

structure WetRecord where
  rec_type : String
  uri : List Char
  language : String
  content : List Char
deriving DecidableEq

structure Row where
  uri : List Char
  website : List Char
  postcodes : List (List Char)
  text : List Char
deriving DecidableEq

structure ArchiveInput where
  openFails : Bool
  records : List WetRecord
  raisesAfter : Bool
deriving DecidableEq

/-- The `for record in ArchiveIterator(f)` loop body (lines 83-101),
with the accumulated `results` threaded through.  A `TypeError` raised
inside `Bristol_postcode_finder` (None lookup) escapes the loop and is
caught at line 102, keeping the rows accumulated so far. -/
def extractLoop (lookup : Option (List (List Char))) :
    List WetRecord → List Row → List Row
  | [], acc => acc
  | r :: rest, acc =>
    if r.rec_type = "conversion" then
      if (containsSub ['.', 'c', 'o', '.', 'u', 'k', '/'] r.uri) && (r.language = "eng") then
        match Bristol_postcode_finder r.content lookup with
        | Except.error _ => acc
        | Except.ok none => extractLoop lookup rest acc
        | Except.ok (some pcs) =>
          extractLoop lookup rest
            (acc ++ [⟨r.uri, extract_website r.uri, pcs, r.content.map Char.toLower⟩])
      else extractLoop lookup rest acc
    else extractLoop lookup rest acc

/-- The `results` list as computed by the `try` block of
`process_wet_file` (every exception inside it is caught at line 102 and
the rows already accumulated are kept). -/
def extractRows (archive : ArchiveInput) (lookup : Option (List (List Char))) : List Row :=
  if archive.openFails then [] else extractLoop lookup archive.records []

/-- `process_wet_file(wet_file_path, output_path, postcode_lookup)`.
The download's bytes are the `archive` oracle; `writeFails` says whether
`df.to_parquet` (line 107, outside the `try`) raises, in which case the
exception propagates to the caller (`Except.error`).  On normal return
the value is the extracted rows (the source returns `len(results)`)
together with whether the parquet artifact was written. -/
def process_wet_file (archive : ArchiveInput) (lookup : Option (List (List Char)))
    (writeFails : Bool) : Except Unit (List Row × Bool) :=
  let results := extractRows archive lookup
  if results.isEmpty then Except.ok (results, false)
  else if writeFails then Except.error ()
  else Except.ok (results, true)

/-! ### download_file (lines 41-58)

The network is an oracle giving each attempt's outcome.  An attempt can
fail before `open(output_path, 'wb')` runs (`failNoFile`: DNS failure,
`raise_for_status`, ...) or after it created and partially wrote the
destination file (`failPartialFile`: the stream broke mid-copy); a later
attempt that reaches `open` truncates and rewrites the same path, so the
file exists afterwards iff some executed attempt reached `open`.
The result is `(returned value, destination file exists, total seconds
slept)`; `max_retries = 0` makes the Python function fall off the loop
and return `None`, modelled as a `false` return. -/

inductive DLAttempt
  | success
  | failNoFile
  | failPartialFile
deriving DecidableEq

/-- The `for attempt in range(max_retries)` loop: `remaining` counts the
attempts still allowed, `delay` is the current `retry_delay` (doubled
after each sleeping failure), `file` whether the destination file exists
so far.  `remaining = 0` after a failure is the `attempt == max_retries-1`
branch: return `False` without sleeping. -/
def download_go (oracle : Nat → DLAttempt) : Nat → Nat → Nat → Bool → Bool × Bool × Nat
  | 0, _, _, file => (false, file, 0)
  | remaining + 1, i, delay, file =>
    match oracle i with
    | DLAttempt.success => (true, true, 0)
    | DLAttempt.failNoFile =>
      if remaining = 0 then (false, file, 0)
      else
        let r := download_go oracle remaining (i + 1) (delay * 2) file
        (r.1, r.2.1, r.2.2 + delay)
    | DLAttempt.failPartialFile =>
      if remaining = 0 then (false, true, 0)
      else
        let r := download_go oracle remaining (i + 1) (delay * 2) true
        (r.1, r.2.1, r.2.2 + delay)

/-- `download_file(url, output_path, max_retries, retry_delay, ...)`. -/
def download_file (oracle : Nat → DLAttempt) (max_retries retry_delay : Nat) :
    Bool × Bool × Nat :=
  download_go oracle max_retries 0 retry_delay false

/-! ### process_segment (lines 114-153) -/

/-- All the inputs one `process_segment(segment_number, wet_paths_file,
server_url, output_dir, postcode_lookup)` call depends on.
`manifestMissing` models `open(wet_paths_file)` raising (caught by the
outer `except`, line 151); `paths` are the manifest lines; the download
oracle and the archive contents stand for the remote segment. -/
structure SegInput where
  manifestMissing : Bool
  paths : List String
  segment_number : Nat
  oracle : Nat → DLAttempt
  max_retries : Nat
  retry_delay : Nat
  archive : ArchiveInput
  lookup : Option (List (List Char))
  writeFails : Bool

/-- Observable outcome of one `process_segment` call: the returned
boolean, whether the temporary `.gz` file still exists in the output
directory afterwards, whether the parquet artifact was written, and
whether a download was attempted at all. -/
structure SegResult where
  success : Bool
  gzLeft : Bool
  parquetWritten : Bool
  downloadAttempted : Bool
deriving DecidableEq

/-- `process_segment`, line by line: out-of-range check (line 120,
returns `False` before any download), download (line 137, early `False`
return on failure — without removing a partially downloaded file),
extraction (line 142; a `to_parquet` exception propagates to the outer
`except` at line 151 and returns `False`, also skipping the removal),
and the `os.remove` of the `.gz` file (lines 144-146) only on the
fall-through path. -/
def process_segment (inp : SegInput) : SegResult :=
  if inp.manifestMissing then ⟨false, false, false, false⟩
  else if inp.paths.length ≤ inp.segment_number then ⟨false, false, false, false⟩
  else
    let dl := download_file inp.oracle inp.max_retries inp.retry_delay
    if !dl.1 then ⟨false, dl.2.1, false, true⟩
    else
      match process_wet_file inp.archive inp.lookup inp.writeFails with
      | Except.error _ => ⟨false, dl.2.1, false, true⟩
      | Except.ok (_, wrote) => ⟨true, false, wrote, true⟩

/-! ### slurm-sequential-runner.py: array sizing and submission parameters
(lines 47-84) -/

/-- `array_size = n_files // segments_per_task` (line 47). -/
def array_size (n_files segments_per_task : Nat) : Nat := n_files / segments_per_task

/-- The `slurm_params` dictionary assembled in lines 63-82: the three
mandatory entries plus the optional ones, and the `array` directive
`"0-{array_size-1}%{throttle}"` added exactly when `array_size > 1`
(lines 80-81). -/
structure SlurmParams where
  job_name : String
  output : String
  error : String
  partition : Option String
  time : Option Nat
  mem : Option String
  cpus_per_task : Option Nat
  array : Option String
deriving DecidableEq

def buildSlurmParams (jobPfx date : String) (n_files segments_per_task throttle : Nat)
    (partition : Option String) (time_limit : Option Nat) (mem : Option String)
    (cpus_per_task : Option Nat) : SlurmParams :=
  let job_name := jobPfx ++ "_" ++ date
  let a := array_size n_files segments_per_task
  { job_name := job_name
    output := job_name ++ "_%j.out"
    error := job_name ++ "_%j.err"
    partition := partition
    time := time_limit
    mem := mem
    cpus_per_task := cpus_per_task
    array :=
      if 1 < a then some ("0-" ++ toString (a - 1) ++ "%" ++ toString throttle)
      else none }

/-! ### The polling loop of submit_and_wait_for_job (lines 100-121)

Each `squeue` call is one `PollResult`: the job id still listed
(`running`), no longer listed (`gone`), `squeue` exiting non-zero so that
`check=True` raises `subprocess.CalledProcessError` (`queryError`), or
any other exception while checking (`otherError`).  The loop:
`gone` and `queryError` set `job_completed = True`; `running` and
`otherError` sleep `check_interval` and poll again. -/

inductive PollResult
  | running
  | gone
  | queryError
  | otherError
deriving DecidableEq

/-- Runs the `while not job_completed` loop against a finite list of
poll outcomes; returns `some n` when the loop exits after consuming `n`
polls, and `none` when it exhausts the list still waiting (the real loop
would keep polling forever). -/
def waitLoop : List PollResult → Option Nat
  | [] => none
  | p :: rest =>
    match p with
    | PollResult.gone => some 1
    | PollResult.queryError => some 1
    | PollResult.running => (waitLoop rest).map (· + 1)
    | PollResult.otherError => (waitLoop rest).map (· + 1)

/-! ### process_crawl_data_sequentially (lines 148-170)

The observable scheduler interaction is a trace of events; job ids are
opaque, so the id returned by the `k`-th `sbatch` is modelled as `k`.
`Ev.submitted k` is the `slurm.sbatch()` call for the `k`-th epoch
(line 97); `Ev.finished k` is the moment its polling loop observes the
job gone (or the status query raising `CalledProcessError`) and exits.
An epoch whose polling loop never exits blocks the program, so no
further events follow it. -/

inductive Ev
  | submitted (k : Nat)
  | finished (k : Nat)
deriving DecidableEq

/-- The event trace of the sequential loop, starting at epoch index `e`;
each epoch carries its own list of poll outcomes. -/
def runTrace (e : Nat) : List (List PollResult) → List Ev
  | [] => []
  | polls :: rest =>
    Ev.submitted e ::
      match waitLoop polls with
      | some _ => Ev.finished e :: runTrace (e + 1) rest
      | none => []

/-! ### Spec-side characterization of record emission

`bsMatches` names the value bound to `matches` in line 68 of the source:
regex matches over the original-case text, deduplicated, restricted to
the `BS` sub-region, intersected with the gazetteer column.
`spec_emitRecord` restates the spec's per-record emission rule (spec
§4.2 / claim C5); `cc_C5` proves the source loop refines it. -/

def bsMatches (t : List Char) (pcds : List (List Char)) : List (List Char) :=
  ((re_findall t).dedup.filter (fun p => List.isPrefixOf ['B', 'S'] p)).filter
    (fun p => decide (p ∈ pcds))

def spec_emitRecord (pcds : List (List Char)) (r : WetRecord) : Option Row :=
  if r.rec_type = "conversion" ∧ containsSub ['.', 'c', 'o', '.', 'u', 'k', '/'] r.uri = true ∧
      r.language = "eng" ∧ bsMatches r.content pcds ≠ [] then
    some ⟨r.uri, extract_website r.uri, bsMatches r.content pcds, r.content.map Char.toLower⟩
  else none

/-! ### Concrete inputs used by witnesses, scenarios and counterexamples -/

def archEmpty : ArchiveInput := ⟨false, [], false⟩

/-- C1 counterexample: an in-range segment whose every download attempt
breaks mid-stream after the destination file was opened and partially
written. -/
def cexC1seg : SegInput :=
  ⟨false, ["crawl-data/seg0.warc.wet.gz"], 0, fun _ => DLAttempt.failPartialFile, 5, 1,
    archEmpty, none, false⟩

/-- C1 amended-claim witness input: download succeeds, archive empty. -/
def winC1seg : SegInput :=
  ⟨false, ["crawl-data/seg0.warc.wet.gz"], 0, fun _ => DLAttempt.success, 5, 1,
    archEmpty, none, false⟩

/-- C2: an archive whose iterator yields one eligible matching record
and then raises (truncated download). -/
def recC2 : WetRecord :=
  ⟨"conversion", "http://shop.example.co.uk/offers".toList, "eng", "visit BS1 1AA soon".toList⟩

def lookupC2 : List (List Char) := ["BS1 1AA".toList]

def archC2 : ArchiveInput := ⟨false, [recC2], true⟩

def rowC2 : Row :=
  ⟨"http://shop.example.co.uk/offers".toList, "shop.example.co.uk".toList,
    ["BS1 1AA".toList], "visit bs1 1aa soon".toList⟩

/-- C5 scenario: one eligible English-language UK-domain record with
text "near BS1 1AA today" and a gazetteer containing "BS1 1AA". -/
def recC5 : WetRecord :=
  ⟨"conversion", "https://maps.bristol.co.uk/find".toList, "eng", "near BS1 1AA today".toList⟩

def lookupC5 : List (List Char) := ["BS1 1AA".toList]

def archC5 : ArchiveInput := ⟨false, [recC5], false⟩

def rowC5 : Row :=
  ⟨"https://maps.bristol.co.uk/find".toList, "maps.bristol.co.uk".toList,
    ["BS1 1AA".toList], "near bs1 1aa today".toList⟩

/-- C6 witness input: no gazetteer loaded (`None`), archive containing a
record with a BS postcode (so the `TypeError` path is exercised). -/
def recC6 : WetRecord :=
  ⟨"conversion", "http://a.co.uk/x".toList, "eng", "go BS2 0AB now".toList⟩

def winC6seg : SegInput :=
  ⟨false, ["p0", "p1"], 1, fun _ => DLAttempt.success, 5, 1, ⟨false, [recC6], false⟩,
    none, false⟩

/-- C8 witness input: a 3-line manifest and segment index 5. -/
def segC8 : SegInput :=
  ⟨false, ["l0", "l1", "l2"], 5, fun _ => DLAttempt.success, 5, 1, archEmpty, none, false⟩

/-- C10 counterexample: download succeeds, extraction yields one row,
but `df.to_parquet` raises. -/
def recC10 : WetRecord :=
  ⟨"conversion", "http://b.co.uk/y".toList, "eng", "at BS3 2AB yes".toList⟩

def lookupC10 : List (List Char) := ["BS3 2AB".toList]

def cexC10seg : SegInput :=
  ⟨false, ["p"], 0, fun _ => DLAttempt.success, 5, 1, ⟨false, [recC10], false⟩,
    some lookupC10, true⟩

/-- C10 witness input: download succeeds, archive holds no eligible
record, so zero rows and no artifact — yet the call returns true. -/
def winC10seg : SegInput :=
  ⟨false, ["p"], 0, fun _ => DLAttempt.success, 5, 1, archEmpty, some lookupC10, true⟩

/-- C2: a full `process_segment` run over the truncated archive
`archC2` (download succeeds, artifact write succeeds). -/
def segC2run : SegInput :=
  ⟨false, ["p"], 0, fun _ => DLAttempt.success, 5, 1, archC2, some lookupC2, false⟩

/-! ## Helper lemmas -/

/-- With `postcode_lookup = None`, `Bristol_postcode_finder` either
returns `None` or raises. -/
lemma bpf_none (t : List Char) :
    Bristol_postcode_finder t none = Except.ok none ∨
    Bristol_postcode_finder t none = Except.error () := by
  simp only [Bristol_postcode_finder]
  split
  · exact Or.inl rfl
  · exact Or.inr rfl

/-- With no gazetteer, the extraction loop never appends a row. -/
lemma extractLoop_none (recs : List WetRecord) : ∀ acc, extractLoop none recs acc = acc := by
  induction recs with
  | nil => intro acc; rfl
  | cons r rest ih =>
    intro acc
    simp only [extractLoop]
    split
    · split
      · rcases bpf_none r.content with h | h
        · rw [h]; exact ih acc
        · rw [h]
      · exact ih acc
    · exact ih acc

/-- With a loaded gazetteer, `Bristol_postcode_finder` never raises and
returns the (possibly empty) intersected match list. -/
lemma bpf_some (t : List Char) (pcds : List (List Char)) :
    Bristol_postcode_finder t (some pcds) =
      Except.ok (if bsMatches t pcds = [] then none else some (bsMatches t pcds)) := by
  simp only [Bristol_postcode_finder, bsMatches, List.isEmpty_iff]

/-- The extraction loop with a loaded gazetteer is the `filterMap` of
the per-record emission rule. -/
lemma extractLoop_filterMap (pcds : List (List Char)) (recs : List WetRecord) :
    ∀ acc, extractLoop (some pcds) recs acc = acc ++ recs.filterMap (spec_emitRecord pcds) := by
  induction recs with
  | nil => intro acc; simp [extractLoop]
  | cons r rest ih =>
    intro acc
    simp only [extractLoop, List.filterMap_cons]
    rw [bpf_some r.content pcds]
    by_cases h1 : r.rec_type = "conversion"
    · by_cases h2 : containsSub ['.', 'c', 'o', '.', 'u', 'k', '/'] r.uri = true
      · by_cases h3 : r.language = "eng"
        · by_cases h4 : bsMatches r.content pcds = []
          · simp [h1, h2, h3, h4, spec_emitRecord, ih]
          · simp [h1, h2, h3, h4, spec_emitRecord, ih, List.append_assoc]
        · simp [h1, h2, h3, spec_emitRecord, ih]
      · simp [h1, h2, spec_emitRecord, ih]
    · simp [h1, spec_emitRecord, ih]

lemma backoff_arith (delay k : Nat) :
    delay * 2 * (2 ^ k - 1) + delay = delay * (2 ^ (k + 1) - 1) := by
  have h1 : 1 ≤ 2 ^ k := Nat.one_le_two_pow
  obtain ⟨m, hm⟩ := Nat.exists_eq_add_of_le h1
  rw [pow_succ, hm]
  have e1 : 1 + m - 1 = m := by omega
  have e2 : (1 + m) * 2 - 1 = 2 * m + 1 := by omega
  rw [e1, e2]
  ring

/-- The retry loop of `download_file`: `k` failing attempts followed by a
success return `True` with the destination file written, after sleeping
`delay * (2^k - 1)` seconds in total (delay doubling after each
failure). -/
lemma download_go_backoff (oracle : Nat → DLAttempt) :
    ∀ (k rem i delay : Nat) (file : Bool), k < rem →
    (∀ j, j < k → oracle (i + j) ≠ DLAttempt.success) →
    oracle (i + k) = DLAttempt.success →
    download_go oracle rem i delay file = (true, true, delay * (2 ^ k - 1)) := by
  intro k
  induction k with
  | zero =>
    intro rem i delay file hrem _ hsucc
    cases rem with
    | zero => omega
    | succ r =>
      simp only [download_go]
      rw [Nat.add_zero] at hsucc
      rw [hsucc]
      simp
  | succ k ih =>
    intro rem i delay file hrem hfail hsucc
    cases rem with
    | zero => omega
    | succ r =>
      have h0 : oracle i ≠ DLAttempt.success := by
        have h := hfail 0 (Nat.succ_pos k)
        simpa using h
      have hr : ¬ r = 0 := by omega
      have hsucc2 : oracle (i + 1 + k) = DLAttempt.success := by
        have : i + 1 + k = i + (k + 1) := by omega
        rw [this]; exact hsucc
      have hfail2 : ∀ j, j < k → oracle (i + 1 + j) ≠ DLAttempt.success := by
        intro j hj
        have h := hfail (j + 1) (by omega)
        have e : i + (j + 1) = i + 1 + j := by omega
        rw [e] at h
        exact h
      simp only [download_go]
      cases ho : oracle i with
      | success => exact absurd ho h0
      | failNoFile =>
        have hrec2 := ih r (i + 1) (delay * 2) file (by omega) hfail2 hsucc2
        simp [hr, hrec2, backoff_arith]
      | failPartialFile =>
        have hrec2 := ih r (i + 1) (delay * 2) true (by omega) hfail2 hsucc2
        simp [hr, hrec2, backoff_arith]

/-! ## Claim theorems -/

/-- C4: a fetch whose first `k` attempts fail at transport level with
`k < max_retries` and whose next attempt succeeds returns `True` (it
never raises: every exception in an attempt is caught by the loop), and
the total wall-clock time slept across retries is at least
`retry_delay * (2^k - 1)`, the delay doubling after each failed
attempt (the proof goes through an exact-equality lemma). -/
theorem cc_C4 (oracle : Nat → DLAttempt) (k max_retries retry_delay : Nat)
    (hk : k < max_retries)
    (hfail : ∀ j, j < k → oracle j ≠ DLAttempt.success)
    (hsucc : oracle k = DLAttempt.success) :
    (download_file oracle max_retries retry_delay).1 = true ∧
    retry_delay * (2 ^ k - 1) ≤ (download_file oracle max_retries retry_delay).2.2 := by
  have h := download_go_backoff oracle k max_retries 0 retry_delay false hk
    (by intro j hj; simpa using hfail j hj) (by simpa using hsucc)
  unfold download_file
  rw [h]
  exact ⟨rfl, le_refl _⟩

/-- C4 witness: two transport failures then success, with
`max_retries = 5` and `retry_delay = 1`: the fetch succeeds and sleeps
at least `1 * (2^2 - 1) = 3` seconds. -/
theorem cc_C4_witness :
    (download_file (fun j => if j < 2 then DLAttempt.failNoFile else DLAttempt.success) 5 1).1
        = true ∧
    1 * (2 ^ 2 - 1) ≤
      (download_file (fun j => if j < 2 then DLAttempt.failNoFile else DLAttempt.success) 5 1).2.2 :=
  cc_C4 (fun j => if j < 2 then DLAttempt.failNoFile else DLAttempt.success) 2 5 1
    (by decide) (by decide) (by decide)

/-- C8: a `process_segment` call whose index is at least the number of
manifest lines returns `False` and performs no partial work: no download
attempt, no artifact, no file created. -/
theorem cc_C8 (inp : SegInput) (h1 : inp.manifestMissing = false)
    (h2 : inp.paths.length ≤ inp.segment_number) :
    process_segment inp = ⟨false, false, false, false⟩ := by
  simp [process_segment, h1, h2]

/-- C8 witness: a 3-line manifest and `process(5, …)`. -/
theorem cc_C8_witness : process_segment segC8 = ⟨false, false, false, false⟩ :=
  cc_C8 segC8 rfl (by decide)

/-- C5: with a loaded gazetteer a record emits a row iff it is a
conversion record whose target URI contains `.co.uk/`, whose declared
language is `eng`, and whose deduplicated, BS-restricted,
gazetteer-intersected match set over the original-case text is
non-empty; the row carries exactly that match set, the canonical site
and the lowercased text (first conjunct: the extraction loop is the
`filterMap` of that rule).  Second conjunct: the spec's scenario — one
eligible record with text "near BS1 1AA today" and gazetteer
containing "BS1 1AA" yields exactly one such row and the artifact is
written. -/
theorem cc_C5 :
    (∀ (pcds : List (List Char)) (records : List WetRecord) (b : Bool),
      extractRows ⟨false, records, b⟩ (some pcds) = records.filterMap (spec_emitRecord pcds)) ∧
    process_wet_file archC5 (some lookupC5) false = Except.ok ([rowC5], true) := by
  constructor
  · intro pcds records b
    simp [extractRows, extractLoop_filterMap]
  · rfl

/-- With no gazetteer loaded, `process_wet_file` always returns zero
rows and writes no artifact (the first eligible record with a BS-format
candidate raises `TypeError` inside the loop, which is caught; records
without such a candidate simply never match). -/
lemma pwf_none (archive : ArchiveInput) (wf : Bool) :
    process_wet_file archive none wf = Except.ok ([], false) := by
  simp [process_wet_file, extractRows, extractLoop_none]

/-- C6: when the gazetteer is absent or unreadable (`load_postcode_lookup`
returns `None`), every archive yields zero emitted rows and no artifact,
and the per-segment call still completes successfully instead of
failing. -/
theorem cc_C6 :
    (∀ (archive : ArchiveInput) (wf : Bool),
      process_wet_file archive none wf = Except.ok ([], false)) ∧
    (∀ inp : SegInput, inp.lookup = none → inp.manifestMissing = false →
      inp.segment_number < inp.paths.length →
      (download_file inp.oracle inp.max_retries inp.retry_delay).1 = true →
      process_segment inp = ⟨true, false, false, true⟩) := by
  refine ⟨fun a wf => pwf_none a wf, ?_⟩
  intro inp hl h1 h2 hdl
  have h2' : ¬(inp.paths.length ≤ inp.segment_number) := Nat.not_le.mpr h2
  have hpw := pwf_none inp.archive inp.writeFails
  simp [process_segment, h1, h2', hdl, hl, hpw]

/-- C6 witness: gazetteer `None`, archive containing an eligible record
with a BS-format candidate, successful download: zero rows, no
artifact, call returns true. -/
theorem cc_C6_witness : process_segment winC6seg = ⟨true, false, false, true⟩ :=
  cc_C6.2 winC6seg rfl rfl (by decide) rfl

/-- C1 counterexample: a valid in-range segment whose download fails on
every attempt after partially writing the destination file —
`process_segment` returns `False` at line 139 without removing the
temporary `.gz` file, so one temporary file remains. -/
theorem cc_C1_cex :
    cexC1seg.manifestMissing = false ∧
    cexC1seg.segment_number < cexC1seg.paths.length ∧
    (process_segment cexC1seg).gzLeft = true := by
  exact ⟨rfl, by decide, rfl⟩

/-- C1 (amended): the temporary downloaded file is removed whenever the
download succeeded and the artifact write did not raise — including when
extraction raised internally (caught) or yielded zero rows.  (When the
download fails after a partial write, or `to_parquet` raises, the
temporary file remains — see the counterexample.) -/
theorem cc_C1 (inp : SegInput) (h1 : inp.manifestMissing = false)
    (h2 : inp.segment_number < inp.paths.length)
    (hdl : (download_file inp.oracle inp.max_retries inp.retry_delay).1 = true)
    (rows : List Row) (wrote : Bool)
    (hpw : process_wet_file inp.archive inp.lookup inp.writeFails = Except.ok (rows, wrote)) :
    (process_segment inp).gzLeft = false := by
  have h2' : ¬(inp.paths.length ≤ inp.segment_number) := Nat.not_le.mpr h2
  simp [process_segment, h1, h2', hdl, hpw]

/-- C1 witness: successful download of an empty archive — no rows, no
artifact, and no temporary file left. -/
theorem cc_C1_witness : (process_segment winC1seg).gzLeft = false :=
  cc_C1 winC1seg rfl (by decide) rfl [] false rfl

/-- C2 counterexample: an archive whose iterator yields one eligible
matching record and then raises (truncated download).  The extraction is
not abandoned wholesale: the already-extracted row is kept and an
artifact is written, contradicting "returns zero rows and no output
artifact is written". -/
theorem cc_C2_cex :
    archC2.raisesAfter = true ∧
    process_wet_file archC2 (some lookupC2) false = Except.ok ([rowC2], true) ∧
    ¬(([rowC2] : List Row) = []) := by
  refine ⟨rfl, rfl, ?_⟩
  intro h
  cases h

/-- C2 (amended): when the record iteration raises, only the remainder
of the archive is abandoned — rows already extracted are kept (the
outcome is the same as if the file had ended at the error point); when
the error occurs before any record is yielded (e.g. the gzip open
fails), zero rows are returned and no artifact is written; the caller
treats either case as a completed attempt (third conjunct: a full
segment run over the truncated archive returns true, writes the
artifact from the kept row, and cleans up). -/
theorem cc_C2 :
    (∀ (recs : List WetRecord) (b : Bool) (lookup : Option (List (List Char))) (wf : Bool),
      process_wet_file ⟨true, recs, b⟩ lookup wf = Except.ok ([], false)) ∧
    (∀ (recs : List WetRecord) (lookup : Option (List (List Char))) (wf : Bool),
      process_wet_file ⟨false, recs, true⟩ lookup wf =
        process_wet_file ⟨false, recs, false⟩ lookup wf) ∧
    process_segment segC2run = ⟨true, false, true, true⟩ := by
  refine ⟨?_, ?_, rfl⟩
  · intro recs b lookup wf
    simp [process_wet_file, extractRows]
  · intro recs lookup wf
    rfl

/-- C10 counterexample: the download succeeds, extraction yields one
row, and the artifact write (`df.to_parquet`, outside the extractor's
`try`) raises — `process_segment` returns `False` despite the
successful download, so it does not return true regardless of the
extraction outcome. -/
theorem cc_C10_cex :
    (download_file cexC10seg.oracle cexC10seg.max_retries cexC10seg.retry_delay).1 = true ∧
    (process_segment cexC10seg).success = false := by
  exact ⟨rfl, rfl⟩

/-- C10 (amended): whenever the download succeeds and the extraction
call returns without raising (in particular when record iteration raised
internally and was caught, or zero rows were extracted and nothing was
written), `process_segment` returns true and its artifact flag is
exactly the extractor's; hence a true return does not imply an output
artifact exists — the second conjunct exhibits a run returning true
with no artifact written. -/
theorem cc_C10 :
    (∀ inp : SegInput, inp.manifestMissing = false →
      inp.segment_number < inp.paths.length →
      (download_file inp.oracle inp.max_retries inp.retry_delay).1 = true →
      ∀ (rows : List Row) (wrote : Bool),
        process_wet_file inp.archive inp.lookup inp.writeFails = Except.ok (rows, wrote) →
        (process_segment inp).success = true ∧ (process_segment inp).parquetWritten = wrote) ∧
    process_segment winC10seg = ⟨true, false, false, true⟩ := by
  constructor
  · intro inp h1 h2 hdl rows wrote hpw
    have h2' : ¬(inp.paths.length ≤ inp.segment_number) := Nat.not_le.mpr h2
    constructor <;> simp [process_segment, h1, h2', hdl, hpw]
  · rfl

/-- C10 witness: download succeeds, archive empty, `writeFails` even set
— the call returns true and no artifact is written. -/
theorem cc_C10_witness :
    (process_segment winC10seg).success = true ∧
    (process_segment winC10seg).parquetWritten = false :=
  cc_C10.1 winC10seg rfl (by decide) rfl [] false rfl

/-- C7 counterexample: a status query that raises something other than
`CalledProcessError` does not finish the epoch at that moment — with
poll outcomes `[otherError, gone]` the loop exits only after the second
query (and with `[otherError]` alone it is still waiting), contradicting
"considered finished at that moment" for every query error. -/
theorem cc_C7_cex :
    waitLoop [PollResult.otherError, PollResult.gone] = some 2 ∧ ¬((2 : Nat) = 1) ∧
    waitLoop [PollResult.otherError] = none := by
  exact ⟨rfl, by decide, rfl⟩

/-- C7 (amended): the epoch is considered finished at the moment the
status query exits with a non-zero status (`subprocess.CalledProcessError`),
exactly as when the job id is absent from the listing; any other error
while checking makes the loop sleep and poll again rather than finish. -/
theorem cc_C7 (rest : List PollResult) :
    waitLoop (PollResult.queryError :: rest) = some 1 ∧
    waitLoop (PollResult.gone :: rest) = some 1 ∧
    waitLoop (PollResult.otherError :: rest) = (waitLoop rest).map (· + 1) ∧
    waitLoop (PollResult.running :: rest) = (waitLoop rest).map (· + 1) := by
  exact ⟨rfl, rfl, rfl, rfl⟩

/-- C9: the array size is `n_files // segments_per_task`, and the job
parameters carry the array directive `0-(array_size-1)` throttled by
`%throttle` exactly when `array_size > 1`; otherwise no array directive
is present.  (`segments_per_task > 0` since Python would raise
`ZeroDivisionError` otherwise.) -/
theorem cc_C9 (pfx date : String) (n_files segments_per_task throttle : Nat)
    (partition : Option String) (time_limit : Option Nat) (mem : Option String)
    (cpus : Option Nat) (_hs : 0 < segments_per_task) :
    array_size n_files segments_per_task = n_files / segments_per_task ∧
    (buildSlurmParams pfx date n_files segments_per_task throttle partition time_limit mem
        cpus).array =
      (if 1 < n_files / segments_per_task then
        some ("0-" ++ toString (n_files / segments_per_task - 1) ++ "%" ++ toString throttle)
      else none) := by
  exact ⟨rfl, rfl⟩

/-- C9 witness: 300 files at 100 segments per task and throttle 10 give
array size 3 and directive `0-2%10`. -/
theorem cc_C9_witness :
    array_size 300 100 = 300 / 100 ∧
    (buildSlurmParams "crawl_job" "202104" 300 100 10 none none none none).array =
      (if 1 < 300 / 100 then
        some ("0-" ++ toString (300 / 100 - 1) ++ "%" ++ toString 10)
      else none) :=
  cc_C9 "crawl_job" "202104" 300 100 10 none none none none (by decide)

/-- C3: in any trace of the sequential orchestrator, whenever a job is
submitted, every previously submitted epoch has already been observed
finished (its id gone from the listing, or the status query errored as
`CalledProcessError`): no job for a later epoch is submitted before the
polling loop finished the earlier one, and at most one epoch's job is
ever in flight.  In particular the submission for epoch `j` is preceded
by the finish of epoch `j - 1`. -/
theorem cc_C3 (ls : List (List PollResult)) :
    ∀ (e j : Nat) (pre post : List Ev),
      runTrace e ls = pre ++ Ev.submitted j :: post →
      (∀ i, Ev.submitted i ∈ pre → Ev.finished i ∈ pre) ∧
      (e < j → Ev.finished (j - 1) ∈ pre) := by
  induction ls with
  | nil =>
    intro e j pre post h
    simp [runTrace] at h
  | cons polls rest ih =>
    intro e j pre post h
    simp only [runTrace] at h
    cases pre with
    | nil =>
      simp only [List.nil_append] at h
      injection h with h1 h2
      injection h1 with h1
      constructor
      · intro i hi
        simp at hi
      · omega
    | cons p0 pre1 =>
      injection h with h1 h2
      cases hw : waitLoop polls with
      | none =>
        rw [hw] at h2
        simp at h2
      | some n =>
        rw [hw] at h2
        simp only [] at h2
        cases pre1 with
        | nil =>
          injection h2 with h3 h4
          exact absurd h3 (by intro hh; cases hh)
        | cons q0 pre2 =>
          injection h2 with h3 h4
          obtain ⟨ihA, ihB⟩ := ih (e + 1) j pre2 post h4
          subst h1
          rw [← h3]
          constructor
          · intro i hi
            rcases List.mem_cons.mp hi with hia | hi2
            · have : i = e := by injection hia
              subst this
              exact List.mem_cons_of_mem _ (List.mem_cons_self _ _)
            · rcases List.mem_cons.mp hi2 with hib | hi3
              · cases hib
              · exact List.mem_cons_of_mem _ (List.mem_cons_of_mem _ (ihA i hi3))
          · intro hlt
            by_cases hj : j = e + 1
            · subst hj
              simp
            · have : e + 1 < j := by omega
              exact List.mem_cons_of_mem _ (List.mem_cons_of_mem _ (ihB this))

/-- C3 witness: two epochs, the first polled `running` then `gone`; the
second epoch's submission is preceded in the trace by the first epoch's
finish. -/
theorem cc_C3_witness :
    runTrace 0 [[PollResult.running, PollResult.gone], [PollResult.gone]] =
      [Ev.submitted 0, Ev.finished 0] ++ Ev.submitted 1 :: [Ev.finished 1] ∧
    Ev.finished 0 ∈ [Ev.submitted 0, Ev.finished 0] :=
  ⟨rfl,
    (cc_C3 [[PollResult.running, PollResult.gone], [PollResult.gone]] 0 1
        [Ev.submitted 0, Ev.finished 0] [Ev.finished 1] rfl).2 (by decide)⟩
